import Mathlib

/-!
Verification of the PyChat client connection state machine.

This file is a shallow embedding of the React chat client of PyChat: the current
client (the `App` component: `handleWebSocketMessage`, `connectWebSocket` with its
`onclose` handler, `handleJoin`, `handleSendMessage`, `handleDisconnect`,
`sendTypingIndicator`, `startRateLimitCountdown`, and the unmount cleanup effect) and
the room-id validation of the legacy client (frontend/src/App.js `handleJoin`).

Strings are `List Char`; JS `Date.now()` values and timestamps are `Nat`, passed
explicitly to each handler that reads the clock.  Only ASCII-relevant behaviour of
`toUpperCase`/`trim` is modelled, which covers the regex character classes involved.
The theorems below check the specified properties of room-id normalization, message
deduplication, rate-limit handling, typing indicators, reconnect scheduling, and
timer cleanup.
-/

namespace PyChat

/-- ASCII whitespace, modelling what `String.prototype.trim` strips for the inputs
of interest. -/
def isWsChar (c : Char) : Bool :=
  c = ' ' || c = '\t' || c = '\n' || c = '\r'

/-- Model of `s.trim()`: strip leading and trailing whitespace. -/
def trimChars (s : List Char) : List Char :=
  ((s.dropWhile isWsChar).reverse.dropWhile isWsChar).reverse

def isLowerAlpha (c : Char) : Bool := decide (97 ≤ c.toNat ∧ c.toNat ≤ 122)

def isUpperAlpha (c : Char) : Bool := decide (65 ≤ c.toNat ∧ c.toNat ≤ 90)

def isDigitChar (c : Char) : Bool := decide (48 ≤ c.toNat ∧ c.toNat ≤ 57)

/-- The character class `[A-Z0-9]` of the current client's replace regex. -/
def isUpperAlnum (c : Char) : Bool := isUpperAlpha c || isDigitChar c

/-- The character class `[A-Za-z0-9]` of the legacy client's validation regex. -/
def isAlnumJS (c : Char) : Bool := isUpperAlpha c || isLowerAlpha c || isDigitChar c

/-- Model of `groupId.trim().toUpperCase().replace(/[^A-Z0-9]/g, '')` from the
current client's `handleJoin`. -/
def normalizeRoomId (s : List Char) : List Char :=
  ((trimChars s).map Char.toUpper).filter isUpperAlnum

/-- JS `a || b` on an optional string field: `none`, like the empty string, is falsy. -/
def jsOrStr (o : Option (List Char)) (d : List Char) : List Char :=
  match o with
  | none => d
  | some s => if s = [] then d else s

/-- JS `a || b` on an optional numeric field: `none`, like `0`, is falsy. -/
def jsOrNat (o : Option Nat) (d : Nat) : Nat :=
  match o with
  | none => d
  | some r => if r = 0 then d else r

/-- Readiness of the WebSocket held in `wsRef` (`null` when the ref holds no socket). -/
inductive WsState where
  | null
  | connecting
  | opened
  | closing
  | closed
deriving DecidableEq, Repr

/-- An outbound frame written to the socket (`ws.send` / `ws.close`). -/
inductive Frame where
  | message (content : List Char)
  | typing (isTyping : Bool)
  | close (code : Nat) (reason : List Char)
deriving DecidableEq, Repr

/-- One entry of the rendered `messages` list. -/
structure ChatMessage where
  id : List Char
  /-- Whether the entry has `type: 'system'` (as opposed to `type: 'user'`). -/
  system : Bool
  username : List Char
  content : List Char
  timestamp : Nat
deriving DecidableEq, Repr

/-- One element of a `messages` batch envelope. -/
structure RawMsg where
  message_id : Option (List Char)
  username : List Char
  content : List Char
  timestamp : Nat
deriving DecidableEq, Repr

/-- A server → client envelope, tagged by its `type` field.  Optional fields model
JSON fields that may be absent from the decoded object. -/
inductive Envelope where
  | welcome (message : List Char) (users : Option (List (List Char)))
  | message (message_id : Option (List Char)) (username content : List Char) (timestamp : Nat)
  | batch (messages : List RawMsg)
  | userJoined (username : List Char) (timestamp : Nat)
  | userLeft (username : List Char) (timestamp : Nat)
  | rateLimit (remaining_seconds : Option Nat)
  | typing (typing_users : Option (List (List Char)))
  | unknown
deriving DecidableEq, Repr

/-- The client's state: the `useState` hooks and the `useRef` cells of `App`.
`pendingMessage` stands for the always-in-sync pair `pendingMessage` state /
`pendingMessageRef`; `username` likewise mirrors `usernameRef`.  A timer field is
`some delayMs` (or `true` for the countdown interval) exactly while its callback is
still pending. -/
structure ClientState where
  isConnected : Bool
  username : List Char
  groupId : List Char
  messages : List ChatMessage
  users : List (List Char)
  messageInput : List Char
  error : List Char
  rateLimitSeconds : Nat
  isRateLimited : Bool
  pendingMessage : List Char
  typingUsers : List (List Char)
  wsReady : WsState
  reconnectTimeout : Option Nat
  rateLimitInterval : Bool
  typingTimeout : Option Nat
  lastTypingSent : Nat
deriving DecidableEq, Repr

/-- The component's initial state: all hooks at their `useState` defaults, no socket,
no timers. -/
def initialState : ClientState where
  isConnected := false
  username := []
  groupId := []
  messages := []
  users := []
  messageInput := []
  error := []
  rateLimitSeconds := 0
  isRateLimited := false
  pendingMessage := []
  typingUsers := []
  wsReady := .null
  reconnectTimeout := none
  rateLimitInterval := false
  typingTimeout := none
  lastTypingSent := 0

/-- Embedding of `startRateLimitCountdown(seconds)`: clear any running interval, set
the countdown state, and install a fresh 1-second interval. -/
def startRateLimitCountdown (st : ClientState) (seconds : Nat) : ClientState :=
  { st with rateLimitSeconds := seconds, isRateLimited := true, rateLimitInterval := true }

/-- One tick of the countdown interval installed by `startRateLimitCountdown`. -/
def countdownTick (st : ClientState) : ClientState :=
  if st.rateLimitSeconds ≤ 1 then
    { st with rateLimitSeconds := 0, isRateLimited := false, rateLimitInterval := false,
              error := [] }
  else
    { st with rateLimitSeconds := st.rateLimitSeconds - 1 }

/-- The id `'system-' + Date.now()` given to locally generated system messages. -/
def systemId (now : Nat) : List Char := "system-".data ++ Nat.toDigits 10 now

/-- The fallback id `'msg-' + Date.now()` used when an envelope carries no
(truthy) `message_id`. -/
def fallbackMsgId (now : Nat) : List Char := "msg-".data ++ Nat.toDigits 10 now

/-- The error text shown by the `rate_limit` envelope handler. -/
def rateLimitText (remaining : Nat) : List Char :=
  "⏱️ Rate limited! Please wait ".data ++ Nat.toDigits 10 remaining
    ++ " seconds before sending another message".data

/-- The error text shown when sending while already rate-limited. -/
def waitText (remaining : Nat) : List Char :=
  "⏱️ Please wait ".data ++ Nat.toDigits 10 remaining
    ++ " seconds before sending another message".data

/-- The per-element mapping of the `messages` batch handler. -/
def rawToChatMessage (now : Nat) (m : RawMsg) : ChatMessage :=
  { id := jsOrStr m.message_id (fallbackMsgId now), system := false,
    username := m.username, content := m.content, timestamp := m.timestamp }

/-- Embedding of `handleWebSocketMessage(data)`: the envelope dispatch of the current
client.  `now` is the value `Date.now()` returns during this handler invocation. -/
def handleWebSocketMessage (st : ClientState) (data : Envelope) (now : Nat) : ClientState :=
  match data with
  | .welcome message users =>
      { st with users := users.getD [],
                messages := { id := systemId now, system := true, username := [],
                              content := message, timestamp := now } :: st.messages }
  | .message message_id username content timestamp =>
      let messageId := jsOrStr message_id (fallbackMsgId now)
      if st.messages.any (fun m => m.id = messageId) then st
      else
        let st1 :=
          if username = st.username ∧ st.pendingMessage ≠ [] then
            { st with pendingMessage := [] }
          else st
        { st1 with
            messages := st1.messages ++
              [{ id := messageId, system := false, username := username,
                 content := content, timestamp := timestamp }] }
  | .batch msgs =>
      let existingIds := st.messages.map (·.id)
      let newMessages :=
        (msgs.map (rawToChatMessage now)).filter (fun m => ¬ existingIds.contains m.id)
      { st with messages := st.messages ++ newMessages }
  | .userJoined username timestamp =>
      let users1 := if st.users.contains username then st.users else st.users ++ [username]
      { st with users := users1,
                messages := { id := systemId now, system := true, username := [],
                              content := username ++ " joined the group".data,
                              timestamp := timestamp } :: st.messages }
  | .userLeft username timestamp =>
      { st with users := st.users.filter (fun u => u ≠ username),
                messages := { id := systemId now, system := true, username := [],
                              content := username ++ " left the group".data,
                              timestamp := timestamp } :: st.messages }
  | .rateLimit remaining_seconds =>
      let remaining := jsOrNat remaining_seconds 5
      let st1 := { st with rateLimitSeconds := remaining, isRateLimited := true }
      let st2 := startRateLimitCountdown st1 remaining
      let st3 := { st2 with error := rateLimitText remaining }
      if st3.pendingMessage ≠ [] then
        { st3 with messageInput := st3.pendingMessage, pendingMessage := [] }
      else st3
  | .typing typing_users =>
      match typing_users with
      | none => st
      | some l => { st with typingUsers := l.filter (fun u => u ≠ st.username) }
  | .unknown => st

/-- Embedding of `connectWebSocket(user, group)`: close an already-open socket, clear
any pending reconnect timer, clear the error, and install a fresh (connecting)
socket.  Returns the frames written to the old socket. -/
def connectWebSocket (st : ClientState) (_user _group : List Char) :
    ClientState × List Frame :=
  let frames := if st.wsReady = .opened then [Frame.close 1000 "Reconnecting".data] else []
  ({ st with reconnectTimeout := none, error := [], wsReady := .connecting }, frames)

/-- The error text set by the `ws.onclose` handler, by close code. -/
def closeErrorText (code : Nat) (reason : List Char) : List Char :=
  if code = 1000 then []
  else if code = 1006 then "Connection lost. Attempting to reconnect...".data
  else if code = 1008 then
    (if reason = [] then
       "Connection rejected. Please check your room name and username.".data
     else reason)
  else if code = 1011 then "Server error occurred. Attempting to reconnect...".data
  else "Connection closed. Attempting to reconnect...".data

/-- The `ws.onclose` handler installed by `connectWebSocket`: record the disconnect,
set the per-close-code error, and schedule a single 3000 ms reconnect timer when the
closure was abnormal and both a username and a room id are still remembered. -/
def handleClose (st : ClientState) (code : Nat) (reason : List Char) : ClientState :=
  let st1 := { st with isConnected := false, wsReady := .closed,
                       error := closeErrorText code reason }
  if code ≠ 1000 ∧ st1.username ≠ [] ∧ st1.groupId ≠ [] then
    if st1.reconnectTimeout = none then { st1 with reconnectTimeout := some 3000 }
    else st1
  else st1

/-- The `ws.onopen` handler installed by `connectWebSocket`. -/
def handleOpen (st : ClientState) : ClientState :=
  { st with isConnected := true, wsReady := .opened, error := [], reconnectTimeout := none }

/-- Embedding of the current client's `handleJoin`: validate the raw `username` and
`groupId` inputs; on success connect with the normalized room id (also returned as
`some (user, room)`), otherwise show an error and attempt no connection. -/
def handleJoin (st : ClientState) : ClientState × Option (List Char × List Char) :=
  let trimmedUsername := trimChars st.username
  let trimmedGroupId := normalizeRoomId st.groupId
  if trimmedUsername = [] then
    ({ st with error := "Please enter a username".data }, none)
  else if trimmedGroupId.length ≠ 5 then
    ({ st with error := "Room name must be exactly 5 alphanumeric characters".data }, none)
  else
    let st1 := { st with groupId := trimmedGroupId }
    ((connectWebSocket st1 trimmedUsername trimmedGroupId).1,
     some (trimmedUsername, trimmedGroupId))

/-- Embedding of `sendTypingIndicator(isTyping)`: drop the call when the socket is
not open; debounce a typing-start to at most one frame per 1000 ms; otherwise send
the frame, remember the send time, and (re)arm the 2000 ms auto-stop timer for
typing-starts. -/
def sendTypingIndicator (st : ClientState) (isTyping : Bool) (now : Nat) :
    ClientState × List Frame :=
  if ¬ (st.isConnected = true ∧ st.wsReady = .opened) then (st, [])
  else if isTyping = true ∧ now - st.lastTypingSent < 1000 then (st, [])
  else
    let st1 := { st with lastTypingSent := now,
                         typingTimeout := if isTyping then some 2000 else none }
    (st1, [Frame.typing isTyping])

/-- Embedding of `handleSendMessage`: ignore empty input or a closed socket; while
rate-limited, only show the wait error and send nothing; otherwise stop the typing
indicator, remember the trimmed text as pending, send it, clear the input and the
error, and start the optimistic 5-second countdown. -/
def handleSendMessage (st : ClientState) (now : Nat) : ClientState × List Frame :=
  let trimmed := trimChars st.messageInput
  if trimmed = [] ∨ st.isConnected = false ∨ st.wsReady ≠ .opened then (st, [])
  else if st.isRateLimited then
    ({ st with error := waitText st.rateLimitSeconds }, [])
  else
    let (st1, typingFrames) := sendTypingIndicator st false now
    let st2 := { st1 with pendingMessage := trimmed }
    let st3 := { st2 with messageInput := [], error := [] }
    let st4 := startRateLimitCountdown st3 5
    (st4, typingFrames ++ [Frame.message trimmed])

/-- Embedding of `handleDisconnect`: send a final typing-stop when the socket is
open, close it with the normal code 1000, reset the session state, and cancel the
reconnect and typing timers.  The rate-limit countdown interval is left untouched. -/
def handleDisconnect (st : ClientState) : ClientState × List Frame :=
  let typingFrames := if st.wsReady = .opened then [Frame.typing false] else []
  let closeFrames :=
    if st.wsReady ≠ .null then [Frame.close 1000 "User disconnected".data] else []
  ({ st with wsReady := .null, isConnected := false, messages := [], users := [],
             typingUsers := [], username := [], groupId := [], error := [],
             reconnectTimeout := none, typingTimeout := none },
   typingFrames ++ closeFrames)

/-- The unmount cleanup effect: close an open socket, cancel all three timers, and
send a final typing-stop if the socket is still open (it never is after the close,
so that frame is in fact never produced). -/
def unmountCleanup (st : ClientState) : ClientState × List Frame :=
  let st1 := if st.wsReady = .opened then { st with wsReady := WsState.closing } else st
  let closeFrames :=
    if st.wsReady = .opened then [Frame.close 1000 "Component unmounting".data] else []
  let st2 := { st1 with reconnectTimeout := none, rateLimitInterval := false,
                        typingTimeout := none }
  let typingFrames := if st2.wsReady = .opened then [Frame.typing false] else []
  (st2, closeFrames ++ typingFrames)

/-- The legacy client's `handleJoin` (frontend/src/App.js): trim the username,
uppercase the trimmed group id, and accept only a non-empty group id of at most 4
characters matching `^[A-Za-z0-9]+$`.  Returns the `connectWebSocket` arguments on
success, `none` when validation fails (the legacy error paths are not needed here). -/
def legacyHandleJoin (username groupId : List Char) : Option (List Char × List Char) :=
  let trimmedUsername := trimChars username
  let trimmedGroupId := (trimChars groupId).map Char.toUpper
  if trimmedUsername = [] then none
  else if trimmedGroupId = [] ∨ 4 < trimmedGroupId.length
          ∨ trimmedGroupId.all isAlnumJS = false then none
  else some (trimmedUsername, trimmedGroupId)

/-- A concrete pre-join state: raw username `"alice"`, raw room input `" abc12 "`. -/
def joinProbeState : ClientState :=
  { initialState with
      username := "alice".data
      groupId := " abc12 ".data }

/-- A concrete pre-join state whose raw room input the legacy client accepts. -/
def legacyProbeState : ClientState :=
  { initialState with
      username := "alice".data
      groupId := " ab1 ".data }

/-- A concrete connected in-room state for user `"bob"`. -/
def typingProbeState : ClientState :=
  { initialState with
      isConnected := true
      username := "bob".data
      groupId := "ABC12".data
      wsReady := .opened }

/-- A concrete room-wide typing list containing the client's own username. -/
def typingProbeList : List (List Char) :=
  ["alice".data, "bob".data, "carol".data]

/-- A concrete connected, rate-limited state with text in the input box and the
countdown interval running. -/
def rateLimitedProbeState : ClientState :=
  { initialState with
      isConnected := true
      username := "bob".data
      groupId := "ABC12".data
      messageInput := "hello".data
      isRateLimited := true
      rateLimitSeconds := 3
      rateLimitInterval := true
      wsReady := .opened }

/-- A concrete in-room state that has already rendered the message with id `"m1"`. -/
def renderedProbeState : ClientState :=
  { initialState with
      isConnected := true
      username := "alice".data
      groupId := "ABC12".data
      wsReady := .opened
      messages := [{ id := "m1".data, system := false, username := "alice".data,
                     content := "hi".data, timestamp := 10 }] }

/-- A concrete connected state with a pending (optimistically cleared) message text. -/
def pendingProbeState : ClientState :=
  { initialState with
      isConnected := true
      username := "bob".data
      groupId := "ABC12".data
      wsReady := .opened
      pendingMessage := "hi there".data }

lemma toNat_toUpper_of_lower (c : Char) (h1 : 97 ≤ c.toNat) (h2 : c.toNat ≤ 122) :
    (Char.toUpper c).toNat = c.toNat - 32 := by
  have hv : (c.toNat - 32).isValidChar := by
    left
    omega
  simp only [Char.toUpper, if_pos (And.intro h1 h2)]
  show (Char.ofNat (c.toNat - 32)).toNat = c.toNat - 32
  rw [Char.ofNat, dif_pos hv]
  rfl

lemma isLowerAlpha_toUpper (c : Char) : isLowerAlpha (Char.toUpper c) = false := by
  by_cases h : 97 ≤ c.toNat ∧ c.toNat ≤ 122
  · have := toNat_toUpper_of_lower c h.1 h.2
    simp [isLowerAlpha, this]
    omega
  · have : Char.toUpper c = c := by
      simp only [Char.toUpper]
      rw [if_neg h]
    rw [this]
    simp [isLowerAlpha]
    omega

lemma isUpperAlnum_of_alnum_toUpper (c : Char) (h : isAlnumJS (Char.toUpper c) = true) :
    isUpperAlnum (Char.toUpper c) = true := by
  have hl := isLowerAlpha_toUpper c
  simp only [isAlnumJS, hl, Bool.or_false, Bool.false_or, Bool.or_eq_true] at h
  simp only [isUpperAlnum, Bool.or_eq_true]
  tauto

lemma normalizeRoomId_all_upperAlnum (s : List Char) :
    (normalizeRoomId s).all isUpperAlnum = true := by
  simp only [normalizeRoomId, List.all_eq_true]
  intro c hc
  exact (List.mem_filter.mp hc).2

lemma filter_upperAlnum_of_all_alnum (l : List Char)
    (h : (l.map Char.toUpper).all isAlnumJS = true) :
    (l.map Char.toUpper).filter isUpperAlnum = l.map Char.toUpper := by
  rw [List.filter_eq_self]
  intro a ha
  rcases List.mem_map.mp ha with ⟨c, -, rfl⟩
  exact isUpperAlnum_of_alnum_toUpper c (List.all_eq_true.mp h _ ha)

lemma message_already_rendered_noop (s : ClientState) (mid user content : List Char)
    (ts n : Nat) (hmid : mid ≠ [])
    (hmem : mid ∈ s.messages.map ChatMessage.id) :
    handleWebSocketMessage s (.message (some mid) user content ts) n = s := by
  have hj : jsOrStr (some mid) (fallbackMsgId n) = mid := by simp [jsOrStr, hmid]
  have hany : s.messages.any (fun m => m.id = mid) = true := by
    rw [List.any_eq_true]
    rcases List.mem_map.mp hmem with ⟨m, hm, hid⟩
    exact ⟨m, hm, by simp [hid]⟩
  unfold handleWebSocketMessage
  dsimp only
  rw [hj, if_pos hany]

lemma message_id_rendered_after (s : ClientState) (mid user content : List Char)
    (ts n : Nat) (hmid : mid ≠ []) :
    mid ∈ (handleWebSocketMessage s (.message (some mid) user content ts) n).messages.map
      ChatMessage.id := by
  have hj : jsOrStr (some mid) (fallbackMsgId n) = mid := by simp [jsOrStr, hmid]
  unfold handleWebSocketMessage
  dsimp only
  rw [hj]
  by_cases hany : s.messages.any (fun m => m.id = mid) = true
  · rw [if_pos hany]
    rw [List.any_eq_true] at hany
    rcases hany with ⟨m, hm, hid⟩
    exact List.mem_map.mpr ⟨m, hm, by simpa using hid⟩
  · rw [if_neg hany]
    simp [apply_ite ClientState.messages]

/-- C1: `handleJoin` initiates a connection iff the trimmed username is non-empty and
the room id, after trimming, uppercasing, and stripping non-alphanumerics, has length
exactly 5; on success the connection uses the normalized (uppercase,
alphanumeric-only, length-5) room id, and otherwise no connection is attempted and an
error message is shown. -/
theorem handleJoin_connect_iff (st : ClientState) :
    ((handleJoin st).2 ≠ none ↔
      trimChars st.username ≠ [] ∧ (normalizeRoomId st.groupId).length = 5) ∧
    (∀ u g, (handleJoin st).2 = some (u, g) →
      u = trimChars st.username ∧ g = normalizeRoomId st.groupId ∧
      g.length = 5 ∧ g.all isUpperAlnum = true) ∧
    ((handleJoin st).2 = none →
      (handleJoin st).1.error ≠ [] ∧ (handleJoin st).1.wsReady = st.wsReady) ∧
    ((handleJoin st).2 ≠ none → (handleJoin st).1.wsReady = .connecting) := by
  refine ⟨?_, ?_, ?_, ?_⟩ <;>
    (unfold handleJoin connectWebSocket; dsimp only; split_ifs with h1 h2)
  · simp [h1]
  · simp [h2]
  · rw [not_ne_iff] at h2
    simp [h1, h2]
  · intro u g h
    simp at h
  · intro u g h
    simp at h
  · intro u g h
    rw [not_ne_iff] at h2
    injection h with h
    injection h with hu hg
    exact ⟨hu.symm, hg.symm, hg ▸ h2, hg ▸ normalizeRoomId_all_upperAlnum _⟩
  · intro _
    refine ⟨by simp, rfl⟩
  · intro _
    refine ⟨by simp, rfl⟩
  · intro h
    simp at h
  · intro h
    exact absurd rfl h
  · intro h
    exact absurd rfl h
  · intro _
    rfl

/-- C1 witness: the concrete raw input `("alice", " abc12 ")` is accepted. -/
theorem handleJoin_connect_iff_witness :
    trimChars joinProbeState.username ≠ [] ∧
    (normalizeRoomId joinProbeState.groupId).length = 5 ∧
    (handleJoin joinProbeState).2 ≠ none :=
  ⟨by decide, by decide,
   (handleJoin_connect_iff joinProbeState).1.mpr ⟨by decide, by decide⟩⟩

/-- C2: handling a `message` envelope whose server-assigned id is already in the
rendered list leaves the client state (in particular the rendered list) unchanged,
and handling the same envelope twice has the same effect as handling it once. -/
theorem message_dedup_idempotent (st : ClientState) (mid user content : List Char)
    (ts now1 now2 : Nat) (hmid : mid ≠ []) :
    (mid ∈ st.messages.map ChatMessage.id →
      handleWebSocketMessage st (.message (some mid) user content ts) now1 = st) ∧
    handleWebSocketMessage
        (handleWebSocketMessage st (.message (some mid) user content ts) now1)
        (.message (some mid) user content ts) now2
      = handleWebSocketMessage st (.message (some mid) user content ts) now1 :=
  ⟨fun hmem => message_already_rendered_noop st mid user content ts now1 hmid hmem,
   message_already_rendered_noop _ mid user content ts now2 hmid
     (message_id_rendered_after st mid user content ts now1 hmid)⟩

/-- C2 witness: the broadcast echo of an already-rendered concrete message is
discarded. -/
theorem message_dedup_idempotent_witness :
    handleWebSocketMessage renderedProbeState
        (.message (some "m1".data) "alice".data "hi".data 10) 99
      = renderedProbeState :=
  (message_dedup_idempotent renderedProbeState "m1".data "alice".data "hi".data
      10 99 99 (by decide)).1 (by decide)

/-- C3 counterexample: a `rate_limit` envelope carrying `remaining_seconds = 0`
starts a 5-second countdown, not the server-stated 0-second one, refuting the claim
that the countdown state always equals the server-provided value. -/
theorem rate_limit_zero_not_resynced :
    (handleWebSocketMessage pendingProbeState (.rateLimit (some 0)) 0).rateLimitSeconds
      = 5 := by decide

/-- C3 (amended to truthy `remaining_seconds`): on a `rate_limit` envelope carrying a
non-zero `remaining_seconds = r`, the client restores the pending message text into
the input (when one exists), clears the pending text, and sets its countdown state to
the server-provided `r`. -/
theorem rate_limit_restores_pending (st : ClientState) (r now : Nat) (hr : r ≠ 0) :
    (st.pendingMessage ≠ [] →
      (handleWebSocketMessage st (.rateLimit (some r)) now).messageInput
        = st.pendingMessage) ∧
    (handleWebSocketMessage st (.rateLimit (some r)) now).pendingMessage = [] ∧
    (handleWebSocketMessage st (.rateLimit (some r)) now).rateLimitSeconds = r ∧
    (handleWebSocketMessage st (.rateLimit (some r)) now).isRateLimited = true ∧
    (handleWebSocketMessage st (.rateLimit (some r)) now).rateLimitInterval = true := by
  have hrem : jsOrNat (some r) 5 = r := by simp [jsOrNat, hr]
  unfold handleWebSocketMessage startRateLimitCountdown
  dsimp only
  split_ifs with hp
  · exact ⟨fun _ => rfl, rfl, hrem, rfl, rfl⟩
  · rw [not_ne_iff] at hp
    exact ⟨fun hc => absurd hc (hp ▸ fun h => h rfl), hp, hrem, rfl, rfl⟩

/-- C3 witness: a concrete `rate_limit` with `remaining_seconds = 3` and pending
text restores the input and resyncs the countdown to 3. -/
theorem rate_limit_restores_pending_witness :
    pendingProbeState.pendingMessage ≠ [] ∧
    (handleWebSocketMessage pendingProbeState (.rateLimit (some 3)) 0).messageInput
      = pendingProbeState.pendingMessage ∧
    (handleWebSocketMessage pendingProbeState (.rateLimit (some 3)) 0).rateLimitSeconds
      = 3 :=
  ⟨by decide,
   (rate_limit_restores_pending pendingProbeState 3 0 (by decide)).1 (by decide),
   (rate_limit_restores_pending pendingProbeState 3 0 (by decide)).2.2.1⟩

/-- C4: on connection close, a reconnect timer is scheduled only when the close code
is not 1000 and both a remembered username and room id are non-empty; it is a fixed
3000 ms timer; a pending timer is never replaced (so at most one is ever pending);
and `connectWebSocket` clears any pending timer before creating a connection. -/
theorem reconnect_scheduling (st : ClientState) (code : Nat) (reason : List Char) :
    ((code = 1000 ∨ st.username = [] ∨ st.groupId = []) →
      (handleClose st code reason).reconnectTimeout = st.reconnectTimeout) ∧
    (∀ d, st.reconnectTimeout = some d →
      (handleClose st code reason).reconnectTimeout = some d) ∧
    (code ≠ 1000 → st.username ≠ [] → st.groupId ≠ [] → st.reconnectTimeout = none →
      (handleClose st code reason).reconnectTimeout = some 3000) ∧
    (∀ u g, (connectWebSocket st u g).1.reconnectTimeout = none) := by
  refine ⟨?_, ?_, ?_, fun u g => rfl⟩
  · intro hor
    unfold handleClose
    dsimp only
    split_ifs with h1 h2
    · rcases hor with h | h | h
      · exact absurd h h1.1
      · exact absurd h h1.2.1
      · exact absurd h h1.2.2
    · rfl
    · rfl
  · intro d hd
    unfold handleClose
    dsimp only
    split_ifs with h1 h2
    · rw [hd] at h2
      cases h2
    · exact hd
    · exact hd
  · intro hc hu hg hn
    unfold handleClose
    dsimp only
    split_ifs with h1
    · rfl
    · exact absurd ⟨hc, hu, hg⟩ h1

/-- C4 witness: an abnormal close (1006) in a live session with no pending timer
schedules the single 3000 ms reconnect timer. -/
theorem reconnect_scheduling_witness :
    (1006 ≠ 1000 ∧ typingProbeState.username ≠ [] ∧ typingProbeState.groupId ≠ [] ∧
      typingProbeState.reconnectTimeout = none) ∧
    (handleClose typingProbeState 1006 []).reconnectTimeout = some 3000 :=
  ⟨⟨by decide, by decide, by decide, by decide⟩,
   (reconnect_scheduling typingProbeState 1006 []).2.2.1 (by decide) (by decide)
     (by decide) (by decide)⟩

/-- C5: no room-id input accepted by the legacy validator (1–4 alphanumeric
characters after trimming and uppercasing) is also accepted by the current validator
(exactly 5 characters after trimming, uppercasing, and stripping non-alphanumerics):
whenever the legacy `handleJoin` accepts, the current `handleJoin` attempts no
connection. -/
theorem legacy_current_room_rules_disjoint (un : List Char) (st : ClientState)
    (h : legacyHandleJoin un st.groupId ≠ none) : (handleJoin st).2 = none := by
  have hacc : ¬((trimChars st.groupId).map Char.toUpper = []
      ∨ 4 < ((trimChars st.groupId).map Char.toUpper).length
      ∨ ((trimChars st.groupId).map Char.toUpper).all isAlnumJS = false) := by
    intro hc
    apply h
    unfold legacyHandleJoin
    by_cases hu : trimChars un = []
    · rw [if_pos hu]
    · rw [if_neg hu, if_pos hc]
  push_neg at hacc
  obtain ⟨-, hlen, hall⟩ := hacc
  have hnorm : normalizeRoomId st.groupId = (trimChars st.groupId).map Char.toUpper := by
    unfold normalizeRoomId
    exact filter_upperAlnum_of_all_alnum _ (Bool.not_eq_false _ ▸ hall)
  have hlen5 : (normalizeRoomId st.groupId).length ≠ 5 := by
    rw [hnorm]
    omega
  unfold handleJoin
  dsimp only
  split_ifs with h1
  · rfl
  · rfl

/-- C5 witness: the room input `" ab1 "` is accepted by the legacy client and
rejected by the current client. -/
theorem legacy_current_room_rules_disjoint_witness :
    legacyHandleJoin "alice".data legacyProbeState.groupId ≠ none ∧
    (handleJoin legacyProbeState).2 = none :=
  ⟨by decide, legacy_current_room_rules_disjoint "alice".data legacyProbeState (by decide)⟩

/-- C6: handling a `typing` envelope sets the displayed typing-users list to the
received list with every occurrence of the client's own username removed, preserving
the order (and membership) of the remaining entries. -/
theorem typing_envelope_filters_self (st : ClientState) (l : List (List Char)) (now : Nat) :
    (handleWebSocketMessage st (.typing (some l)) now).typingUsers
        = l.filter (fun u => u ≠ st.username) ∧
    st.username ∉ (handleWebSocketMessage st (.typing (some l)) now).typingUsers ∧
    (handleWebSocketMessage st (.typing (some l)) now).typingUsers.Sublist l ∧
    (∀ u ∈ l, u ≠ st.username →
      u ∈ (handleWebSocketMessage st (.typing (some l)) now).typingUsers) := by
  refine ⟨rfl, ?_, ?_, ?_⟩
  · intro hmem
    simp only [handleWebSocketMessage, List.mem_filter] at hmem
    simp at hmem
  · simpa only [handleWebSocketMessage] using List.filter_sublist l
  · intro u hu hne
    simp only [handleWebSocketMessage, List.mem_filter]
    exact ⟨hu, by simpa using hne⟩

/-- C6 witness: own username `"bob"` is dropped from a concrete typing list, the rest
kept in order. -/
theorem typing_envelope_filters_self_witness :
    (handleWebSocketMessage typingProbeState (.typing (some typingProbeList)) 0).typingUsers
      = ["alice".data, "carol".data] :=
  ((typing_envelope_filters_self typingProbeState typingProbeList 0).1).trans (by decide)

/-- C7: while the rate-limited flag is set, a send attempt transmits no frame and
leaves the message input text and the rendered message list unchanged. -/
theorem send_while_rate_limited (st : ClientState) (now : Nat)
    (h : st.isRateLimited = true) :
    (handleSendMessage st now).2 = [] ∧
    (handleSendMessage st now).1.messageInput = st.messageInput ∧
    (handleSendMessage st now).1.messages = st.messages := by
  unfold handleSendMessage
  dsimp only
  split_ifs with h1
  · exact ⟨rfl, rfl, rfl⟩
  · exact ⟨rfl, rfl, rfl⟩

/-- C7 witness: at a concrete rate-limited state a send attempt transmits nothing and
changes neither the input nor the list. -/
theorem send_while_rate_limited_witness :
    rateLimitedProbeState.isRateLimited = true ∧
    ((handleSendMessage rateLimitedProbeState 0).2 = [] ∧
     (handleSendMessage rateLimitedProbeState 0).1.messageInput
        = rateLimitedProbeState.messageInput ∧
     (handleSendMessage rateLimitedProbeState 0).1.messages
        = rateLimitedProbeState.messages) :=
  ⟨rfl, send_while_rate_limited rateLimitedProbeState 0 rfl⟩

/-- C8 counterexample: the client keeps a third background timer — the rate-limit
countdown interval — and `handleDisconnect` does not cancel it: after an explicit
disconnect of a state whose countdown is running, that timer is still pending, so the
reconnect and typing-debounce timers are not the only background timers and a timer
callback of the ended session can still fire after an explicit disconnect. -/
theorem disconnect_leaves_countdown_interval :
    rateLimitedProbeState.rateLimitInterval = true ∧
    (handleDisconnect rateLimitedProbeState).1.rateLimitInterval = true :=
  ⟨rfl, rfl⟩

/-- C8 (amended): the client keeps three background timers — reconnect,
typing-debounce, and the rate-limit countdown interval.  `handleDisconnect` cancels
the reconnect and typing-debounce timers but leaves the countdown interval untouched;
the unmount cleanup cancels all three. -/
theorem disconnect_unmount_timer_cleanup (st : ClientState) :
    (handleDisconnect st).1.reconnectTimeout = none ∧
    (handleDisconnect st).1.typingTimeout = none ∧
    (handleDisconnect st).1.rateLimitInterval = st.rateLimitInterval ∧
    (unmountCleanup st).1.reconnectTimeout = none ∧
    (unmountCleanup st).1.typingTimeout = none ∧
    (unmountCleanup st).1.rateLimitInterval = false :=
  ⟨rfl, rfl, rfl, rfl, rfl, rfl⟩

/-- C9: a `rate_limit` envelope whose `remaining_seconds` is absent or `0` (falsy)
starts a 5-second countdown rather than one of the server-stated duration. -/
theorem rate_limit_falsy_defaults_to_five (st : ClientState) (rs : Option Nat) (now : Nat)
    (h : rs = none ∨ rs = some 0) :
    (handleWebSocketMessage st (.rateLimit rs) now).rateLimitSeconds = 5 ∧
    (handleWebSocketMessage st (.rateLimit rs) now).isRateLimited = true ∧
    (handleWebSocketMessage st (.rateLimit rs) now).rateLimitInterval = true := by
  have hrem : jsOrNat rs 5 = 5 := by rcases h with rfl | rfl <;> rfl
  unfold handleWebSocketMessage startRateLimitCountdown
  dsimp only
  split_ifs with hp
  · exact ⟨hrem, rfl, rfl⟩
  · exact ⟨hrem, rfl, rfl⟩

/-- C9 witness: `remaining_seconds = 0` yields a 5-second countdown at the initial
state. -/
theorem rate_limit_falsy_defaults_to_five_witness :
    (handleWebSocketMessage initialState (.rateLimit (some 0)) 0).rateLimitSeconds = 5 :=
  (rate_limit_falsy_defaults_to_five initialState (some 0) 0 (Or.inr rfl)).1

/-- C10: a `sendTypingIndicator(true)` call less than 1000 ms after the previous
typing frame was transmitted sends no frame (and changes nothing), so typing-start
indicators go out at most once per second; a `sendTypingIndicator(false)` call is
never suppressed by this debounce. -/
theorem typing_indicator_debounce (st : ClientState) (now : Nat) :
    (now - st.lastTypingSent < 1000 →
      (sendTypingIndicator st true now).2 = [] ∧ (sendTypingIndicator st true now).1 = st) ∧
    ((sendTypingIndicator st true now).2 ≠ [] → 1000 ≤ now - st.lastTypingSent) ∧
    (st.isConnected = true → st.wsReady = .opened →
      (sendTypingIndicator st false now).2 = [Frame.typing false]) := by
  have hsupp : now - st.lastTypingSent < 1000 →
      (sendTypingIndicator st true now).2 = [] ∧ (sendTypingIndicator st true now).1 = st := by
    intro hlt
    unfold sendTypingIndicator
    simp [hlt]
  refine ⟨hsupp, ?_, ?_⟩
  · intro hne
    by_contra hge
    push_neg at hge
    exact hne (hsupp hge).1
  · intro hc ho
    unfold sendTypingIndicator
    simp [hc, ho]

/-- C10 witness: at a concrete connected state, a typing-start 500 ms after the last
typing frame is suppressed while a typing-stop still goes out. -/
theorem typing_indicator_debounce_witness :
    (500 - typingProbeState.lastTypingSent < 1000 ∧
      (sendTypingIndicator typingProbeState true 500).2 = []) ∧
    (sendTypingIndicator typingProbeState false 500).2 = [Frame.typing false] :=
  ⟨⟨by decide, ((typing_indicator_debounce typingProbeState 500).1 (by decide)).1⟩,
   (typing_indicator_debounce typingProbeState 500).2.2 rfl rfl⟩

end PyChat
